import Mathlib

/-!
Shallow embedding of `realtime-py` (`src/realtime/connection.py`), the
client-side engine for a Phoenix-channel style pub/sub protocol, together
with theorems checking the claims of the specification against it.

The transport (`websockets`) and the JSON codec are external black boxes
per the spec; they are modelled by explicit outcome parameters and by
feeding the listen loop the already-decoded frames.  `realtime/channel.py`,
`realtime/message.py` and `realtime/exceptions.py` are not part of the
given sources; the few facts needed about them (the `Message` envelope,
the `ChannelEvents.reply` constant, the `listeners` list of a `Channel`) are
modelled from the spec and marked as such.
-/

namespace RealtimePy

/-- An atomic JSON value (object member). -/
inductive JAtom where
  | nul : JAtom
  | str (s : String) : JAtom
  | num (n : Int) : JAtom
deriving DecidableEq

/-- A JSON value, the universe of payloads and decoded wire-frame fields.
Objects are association lists of key/value pairs.  Nesting is capped at
objects of atoms: every JSON literal the client itself builds (`{}`, the
heartbeat payload) lives here, and no claim inspects deeper structure —
dispatch passes payloads through unchanged. -/
inductive Json where
  | nul : Json
  | str (s : String) : Json
  | num (n : Int) : Json
  | obj (fields : List (String × JAtom)) : Json
deriving DecidableEq

/-- A decoded wire frame: the result of `json.loads` on one text frame,
i.e. a Python dict (association list of keys to JSON values). -/
abbrev WireDict := List (String × Json)

/-- The Python exceptions the modelled code can raise. -/
inductive PyErr where
  /-- Raised as `NotConnectedError(func.__name__)` by the `ensure_connection`
  decorator; carries the name of the decorated function. -/
  | notConnectedError (fname : String)
  /-- Models `websockets.exceptions.ConnectionClosed`. -/
  | connectionClosed
  /-- Models `json.JSONDecodeError` from `json.loads` on a non-JSON frame. -/
  | jsonDecodeError
  /-- Models a `TypeError` from `Message(**d)` when required fields are missing. -/
  | typeError
  /-- Models a `NameError`: an identifier was referenced but not bound in scope. -/
  | nameError (ident : String)
  /-- Models an `AttributeError`: instance attribute was never assigned. -/
  | attributeError (attr : String)
  /-- Connection failure from `connect` (the transport rejecting, or the
  explicit `raise Exception("Connection Failed")`). -/
  | connectionFailed
  /-- An error reported by the transport operation `close`. -/
  | closeFailed
deriving DecidableEq

/-- Modelled from the spec: `realtime/message.py` is not under `src/`.
The `Message` envelope record `{topic, event, payload, ref}` (spec §3):
`topic` and `event` are strings, `payload` arbitrary structured data
defaulting to an empty structure, `ref` an optional correlation id. -/
structure Message where
  topic : String
  event : String
  payload : Json
  ref : Option String
deriving DecidableEq

/-- Modelled from the spec: the reserved reply event (`phx_reply`),
compared against `msg.event` in `Socket.listen`; replies are swallowed. -/
def ChannelEvents.reply : String := "phx_reply"

/-- Modelled from the spec: the heartbeat event of the keep-alive envelope. -/
def ChannelEvents.heartbeat : String := "heartbeat"

/-- Modelled from the spec: the reserved heartbeat topic constant. -/
def PHOENIX_CHANNEL : String := "phoenix"

/-- Modelled from the spec: the fixed heartbeat payload. -/
def HEARTBEAT_PAYLOAD : Json := Json.obj []

/-- One listener registration on a channel: an event name and a callback.
Callbacks are identified by an opaque id; dispatch records which callback
was invoked with which payload instead of running arbitrary user code. -/
structure Listener where
  event : String
  callback : Nat
deriving DecidableEq

/-- Modelled from the spec: `realtime/channel.py` is not under `src/`.
A `Channel` holds its topic, its join parameters and an ordered list of
listener registrations (`connection.py` reads `channel.listeners`, and
the fields `.event` and `.callback` of each listener); the back-reference to the
owning socket carries no data and is dropped. -/
structure Chan where
  topic : String
  params : List (String × String)
  listeners : List Listener
deriving DecidableEq

/-- Modelled from the spec: `Channel.on(event, callback)` appends a
registration; all registrations are retained in registration order. -/
def Chan.on (c : Chan) (event : String) (callback : Nat) : Chan :=
  { c with listeners := c.listeners ++ [⟨event, callback⟩] }

/-- The transport handle (`websockets` connection object), reduced to the
one observable the code reads: its `open` flag. -/
structure WsHandle where
  isOpen : Bool
deriving DecidableEq

/-- The state of a `Socket` (`connection.py`, `Socket.__init__`).
`ws_connection` is an `Option` because `__init__` only annotates the
attribute and never assigns it: `none` models the absent attribute, whose
access raises `AttributeError`.  `channels` is the `defaultdict(list)`
registry as an insertion-ordered association list. -/
structure Socket where
  url : String
  channels : List (String × List Chan)
  connected : Bool
  params : List (String × String)
  hb_interval : Nat
  ws_connection : Option WsHandle
  kept_alive : Bool
deriving DecidableEq

/-- Constructor `Socket.__init__`: registry empty, `connected = False`, the
`ws_connection` attribute not assigned, `kept_alive = False`.
(`appendParams`, pure query-string glue on `url`, is out of scope per
spec §1 and not modelled; no claim reads `url`.) -/
def Socket.init (url : String) (params : List (String × String))
    (hb_interval : Nat) : Socket :=
  { url := url
    channels := []
    connected := false
    params := params
    hb_interval := hb_interval
    ws_connection := none
    kept_alive := false }

/-- Python dict key lookup on a decoded frame. -/
def lookupKey (d : WireDict) (k : String) : Option Json :=
  (d.find? (fun p => p.1 == k)).map (fun p => p.2)

/-- Modelled from the spec: constructing the envelope from a decoded
frame, `Message(**json.loads(msg))` (the `Message` class itself is in the
missing `realtime/message.py`).  Per spec §4.1 parsing fails when `topic`
or `event` is missing; `payload` defaults to an empty structure; `ref` is
optional.  The failure is a `TypeError` (keyword construction with
missing required fields). -/
def mkMessage (d : WireDict) : Except PyErr Message :=
  match lookupKey d "topic", lookupKey d "event" with
  | some (Json.str t), some (Json.str e) =>
      Except.ok
        { topic := t
          event := e
          payload := (lookupKey d "payload").getD (Json.obj [])
          ref := match lookupKey d "ref" with
            | some (Json.str r) => some r
            | _ => none }
  | _, _ => Except.error PyErr.typeError

/-- A decoded frame carrying exactly the fields of `m` (what the server
would send for envelope `m`); used to feed concrete envelopes to the
listen loop. -/
def encodeMsg (m : Message) : WireDict :=
  [("topic", Json.str m.topic), ("event", Json.str m.event),
   ("payload", m.payload),
   ("ref", match m.ref with | some r => Json.str r | none => Json.nul)]

/-- Registry lookup `self.channels.get(topic, [])`, used by dispatch
(`.get` on the defaultdict does not create entries). -/
def channelsGet (chs : List (String × List Chan)) (topic : String) :
    List Chan :=
  match chs.find? (fun p => p.1 == topic) with
  | some p => p.2
  | none => []

/-- Registry insertion `self.channels[topic].append(chan)` on the
`defaultdict(list)`: append to the list of the topic, creating it at the end when absent. -/
def registryAppend (chs : List (String × List Chan)) (topic : String)
    (c : Chan) : List (String × List Chan) :=
  match chs with
  | [] => [(topic, [c])]
  | (t, cs) :: rest =>
      if t == topic then (t, cs ++ [c]) :: rest
      else (t, cs) :: registryAppend rest topic c

/-- Outcome of one `websockets.connect(self.url)` call (the transport is
an external black box): the transport may raise, or return a handle whose
`open` flag the code then checks. -/
inductive ConnectOutcome where
  | rejected
  | opened (isOpen : Bool)
deriving DecidableEq

/-- Operation `Socket.connect`: `ws_connection = await websockets.connect(self.url)`;
if `ws_connection.open`, store the handle and set `connected = True`,
else `raise Exception("Connection Failed")`.  A transport rejection
propagates as the connection-failure error of the transport (spec §6:
`open(url) -> handle | fails with ConnectionFailed`); in either failure
case no attribute of `self` is touched. -/
def Socket.connect (s : Socket) (o : ConnectOutcome) :
    Except PyErr Unit × Socket :=
  match o with
  | ConnectOutcome.rejected => (Except.error PyErr.connectionFailed, s)
  | ConnectOutcome.opened b =>
      if b then
        (Except.ok (),
         { s with ws_connection := some ⟨true⟩, connected := true })
      else (Except.error PyErr.connectionFailed, s)

/-- Operation `Socket.disconnect`: `await self.ws_connection.close()` then
`self.connected = False`.  Reading a never-assigned `ws_connection`
raises `AttributeError`; if the transport `close` itself raises
(`closeOk = false`), the error propagates before the assignment, so
`connected` is left untouched. -/
def Socket.disconnect (s : Socket) (closeOk : Bool) :
    Except PyErr Unit × Socket :=
  match s.ws_connection with
  | none => (Except.error (PyErr.attributeError "ws_connection"), s)
  | some _ =>
      if closeOk then
        (Except.ok (),
         { s with ws_connection := some ⟨false⟩, connected := false })
      else (Except.error PyErr.closeFailed, s)

/-- Operation `Socket.status`: `return self.ws_connection.open`. -/
def Socket.status (s : Socket) : Except PyErr Bool × Socket :=
  match s.ws_connection with
  | none => (Except.error (PyErr.attributeError "ws_connection"), s)
  | some h => (Except.ok h.isOpen, s)

/-- The dict literal `subscribe` builds and sends:
`dict(topic=topic, event="phx_join", payload={}, ref=None)`. -/
def subscribeData (topic : String) : WireDict :=
  [("topic", Json.str topic), ("event", Json.str "phx_join"),
   ("payload", Json.obj []), ("ref", Json.nul)]

/-- The local names bound inside `Socket.subscribe` at the point of the
handler line `print("Connection with server closed",e)`: the parameters
`self` and `topic`, and `data` (assigned before the send).  The `except`
clause has no `as` binding, so it binds nothing. -/
def subscribeLocals : List String := ["self", "topic", "data"]

/-- The module-level names of `realtime/connection.py` (its imports and
top-level definitions), the enclosing scope of the handler in `subscribe`. -/
def moduleGlobals : List String :=
  ["asyncio", "json", "logging", "defaultdict", "wraps", "Any",
   "Callable", "urlparse", "urlencode", "websockets", "Channel",
   "NotConnectedError", "HEARTBEAT_PAYLOAD", "PHOENIX_CHANNEL",
   "ChannelEvents", "Message", "ensure_connection", "appendParams",
   "Socket"]

/-- The Python builtins the module touches (final scope consulted by name
resolution; `e` is not a builtin). -/
def pyBuiltins : List String := ["print", "dict", "list", "Exception"]

/-- Name resolution scope (locals, then module globals, then builtins) at
the `except websockets.exceptions.ConnectionClosed:` handler inside
`Socket.subscribe`. -/
def subscribeHandlerScope : List String :=
  subscribeLocals ++ moduleGlobals ++ pyBuiltins

/-- Operation `Socket.subscribe(topic)` (note: NOT decorated with
`ensure_connection`).  Builds `data`, then
`await self.ws_connection.send(json.dumps(data))`:
accessing a never-assigned `ws_connection` raises `AttributeError`
(not caught — the `except` clause only catches `ConnectionClosed`);
a send on a closed handle raises `ConnectionClosed`, which the handler
catches and then evaluates `print("Connection with server closed",e)` —
resolving the name `e` in scope, raising `NameError` when unbound.
The third component lists the frames actually written to the wire. -/
def Socket.subscribe (s : Socket) (topic : String) :
    Except PyErr Unit × Socket × List WireDict :=
  match s.ws_connection with
  | none => (Except.error (PyErr.attributeError "ws_connection"), s, [])
  | some h =>
      if h.isOpen then (Except.ok (), s, [subscribeData topic])
      else if subscribeHandlerScope.contains "e" then
        (Except.ok (), s, [])
      else (Except.error (PyErr.nameError "e"), s, [])

/-- Operation `Socket.set_channel(topic)`, decorated with `@ensure_connection`:
`if not args[0].connected: raise NotConnectedError(func.__name__)`.
Otherwise `chan = Channel(self, topic, self.params)` (a fresh channel
with no listeners, modelled from the spec as `channel.py` is not under
`src/`) is appended to `self.channels[topic]` and returned.  No wire
traffic occurs on either path. -/
def Socket.set_channel (s : Socket) (topic : String) :
    Except PyErr Chan × Socket :=
  if s.connected then
    let chan : Chan := { topic := topic, params := s.params, listeners := [] }
    (Except.ok chan, { s with channels := registryAppend s.channels topic chan })
  else (Except.error (PyErr.notConnectedError "set_channel"), s)

instance instDecEqExcept {ε α : Type} [DecidableEq ε] [DecidableEq α] :
    DecidableEq (Except ε α) := fun x y =>
  match x, y with
  | Except.ok a, Except.ok b =>
      if h : a = b then Decidable.isTrue (by rw [h])
      else Decidable.isFalse (fun hc => h (Except.ok.inj hc))
  | Except.error a, Except.error b =>
      if h : a = b then Decidable.isTrue (by rw [h])
      else Decidable.isFalse (fun hc => h (Except.error.inj hc))
  | Except.ok _, Except.error _ =>
      Decidable.isFalse (fun hc => Except.noConfusion hc)
  | Except.error _, Except.ok _ =>
      Decidable.isFalse (fun hc => Except.noConfusion hc)

/-- Input of one iteration of the listen loop.  `text d` is a received
text frame, carrying the result of the (black-box) `json.loads` on it:
a decoded dict, or the decode error it raises.  `closed` is the iterator
signalling that the transport closed, which ends the `async for`. -/
inductive Incoming where
  | text (decoded : Except PyErr WireDict)
  | closed
deriving DecidableEq

/-- An observed callback invocation: (callback id, payload argument). -/
abbrev Invocation := Nat × Json

/-- The inner loop of dispatch, `for cl in channel.listeners: if cl.event
== msg.event: await cl.callback(msg.payload)`, recorded as invocations in
listener-registration order. -/
def dispatchListeners (ls : List Listener) (event : String)
    (payload : Json) : List Invocation :=
  match ls with
  | [] => []
  | cl :: rest =>
      if cl.event == event then
        (cl.callback, payload) :: dispatchListeners rest event payload
      else dispatchListeners rest event payload

/-- The outer loop of dispatch, `for channel in
self.channels.get(msg.topic, [])`, in registry order. -/
def dispatchChannels (cs : List Chan) (event : String) (payload : Json) :
    List Invocation :=
  match cs with
  | [] => []
  | ch :: rest =>
      dispatchListeners ch.listeners event payload
        ++ dispatchChannels rest event payload

/-- Full dispatch of one parsed message by the body of `Socket.listen`. -/
def dispatchOne (chs : List (String × List Chan)) (m : Message) :
    List Invocation :=
  dispatchChannels (channelsGet chs m.topic) m.event m.payload

/-- Parsing step `msg = Message(**json.loads(msg))`: decode then construct. -/
def parseFrame (decoded : Except PyErr WireDict) : Except PyErr Message :=
  match decoded with
  | Except.error e => Except.error e
  | Except.ok d => mkMessage d

/-- The body of the `async for` loop of `Socket.listen`.  The whole body sits
in a `try` whose only handler is `except
websockets.exceptions.ConnectionClosed`, which breaks the loop; any other
exception (a parse failure) propagates and terminates `listen`.  A parsed
message whose event is the reply event is skipped; otherwise it is
dispatched.  Returns the loop outcome paired with all invocations made. -/
def listenLoop (chs : List (String × List Chan)) (acc : List Invocation) :
    List Incoming → Except PyErr Unit × List Invocation
  | [] => (Except.ok (), acc)
  | Incoming.closed :: _ => (Except.ok (), acc)
  | Incoming.text d :: rest =>
      match parseFrame d with
      | Except.error e =>
          if e = PyErr.connectionClosed then (Except.ok (), acc)
          else (Except.error e, acc)
      | Except.ok m =>
          if m.event == ChannelEvents.reply then listenLoop chs acc rest
          else listenLoop chs (acc ++ dispatchOne chs m) rest

/-- Operation `Socket.listen`: `async for msg in self.ws_connection: ...`.
Reading a never-assigned `ws_connection` raises `AttributeError` before
any frame is processed. -/
def Socket.listen (s : Socket) (evs : List Incoming) :
    Except PyErr Unit × List Invocation :=
  match s.ws_connection with
  | none => (Except.error (PyErr.attributeError "ws_connection"), [])
  | some _ => listenLoop s.channels [] evs

/-- Outcome of one tick of the heartbeat loop (scripted, the transport
being a black box): either the heartbeat send succeeds, or it raises
`ConnectionClosed`, in which case the handler calls `self.connect()`
whose own outcome is the constructor argument. -/
inductive Tick where
  | sendOk
  | sendClosed (reconnect : ConnectOutcome)
deriving DecidableEq

/-- Result of running the heartbeat loop against a finite script of tick
outcomes: either the script is exhausted with the loop still running
(`while True` never exits normally), or an uncaught exception escaped and
the loop is dead. -/
inductive KAResult where
  | running (s : Socket)
  | crashed (e : PyErr) (s : Socket)
deriving DecidableEq

/-- Heartbeat loop `Socket._keep_alive`: `while True: try: ... await
self.ws_connection.send(json.dumps(data)); await asyncio.sleep(...)
except websockets.exceptions.ConnectionClosed as e: ... await
self.connect()`.  Reading a never-assigned `ws_connection` raises
`AttributeError`, which the handler does not catch; a `ConnectionClosed`
from the send triggers one `connect()` call — if that `connect` raises,
the exception propagates out of `_keep_alive` and the loop terminates. -/
def Socket.keep_alive (s : Socket) : List Tick → KAResult
  | [] => KAResult.running s
  | t :: rest =>
      match s.ws_connection with
      | none => KAResult.crashed (PyErr.attributeError "ws_connection") s
      | some _ =>
          match t with
          | Tick.sendOk => Socket.keep_alive s rest
          | Tick.sendClosed o =>
              match s.connect o with
              | (Except.ok _, s2) => Socket.keep_alive s2 rest
              | (Except.error e, s2) => KAResult.crashed e s2

/-- The socket state a heartbeat-loop run ends in. -/
def KAResult.socket : KAResult → Socket
  | KAResult.running s => s
  | KAResult.crashed _ s => s

/-- The remote endpoint closing the transport: the `open` flag of the stored
handle; the flag drops to false; nothing in the client runs, so no field of the
`Socket` changes. -/
def remoteClose (s : Socket) : Socket :=
  { s with ws_connection := match s.ws_connection with
      | none => none
      | some _ => some ⟨false⟩ }

/-- Whether the transport handle is open and usable (absent handle:
nothing to send or receive on). -/
def handleOpen : Option WsHandle → Bool
  | none => false
  | some h => h.isOpen

/-- The socket states reachable by any sequence of operations: fresh
construction, connect attempts, disconnects (with the transport close
succeeding or failing), channel registration, join sends, listen runs
(which never assign any field), heartbeat-loop runs, and remote closure
of the transport. -/
inductive Reachable : Socket → Prop
  | init (url : String) (params : List (String × String))
      (hb_interval : Nat) : Reachable (Socket.init url params hb_interval)
  | connect {s : Socket} (o : ConnectOutcome) :
      Reachable s → Reachable (s.connect o).2
  | disconnect {s : Socket} (closeOk : Bool) :
      Reachable s → Reachable (s.disconnect closeOk).2
  | set_channel {s : Socket} (topic : String) :
      Reachable s → Reachable (s.set_channel topic).2
  | subscribe {s : Socket} (topic : String) :
      Reachable s → Reachable (s.subscribe topic).2.1
  | keep_alive {s : Socket} (ticks : List Tick) :
      Reachable s → Reachable (s.keep_alive ticks).socket
  | remoteClose {s : Socket} :
      Reachable s → Reachable (remoteClose s)

/-- Dispatch fan-out exactly as the spec words it (spec §4.5 step 3):
for each channel registered under the topic, in registry order, the
listeners whose event equals the envelope event, in registration order,
each invoked once with the payload.  This is the refinement target the
dispatch loops of the source are compared against. -/
def specFanOut : List Chan → String → Json → List Invocation
  | [], _, _ => []
  | ch :: rest, e, p =>
      (ch.listeners.filter (fun l => l.event == e)).map
          (fun l => (l.callback, p))
        ++ specFanOut rest e p

/-- Dispatch of a whole envelope as the spec words it: look up
`channelsFor(envelope.topic)` and fan out. -/
def specDispatch (chs : List (String × List Chan)) (m : Message) :
    List Invocation :=
  specFanOut (channelsGet chs m.topic) m.event m.payload

/-- A freshly constructed socket (concrete instance for witnesses). -/
def demoSocket : Socket := Socket.init "ws://example" [] 5

/-- The demo socket after one successful `connect`. -/
def demoConnected : Socket :=
  (demoSocket.connect (ConnectOutcome.opened true)).2

/-- The connected demo socket after the server closed the transport. -/
def demoClosed : Socket := remoteClose demoConnected

/-- A channel on topic `room:1` with one listener (callback 7) on event
`new_msg`. -/
def demoChan : Chan :=
  { topic := "room:1", params := [], listeners := [⟨"new_msg", 7⟩] }

/-- A second channel on the same topic, listening on `new_msg`
(callback 8) and on `other` (callback 9). -/
def demoChan2 : Chan :=
  { topic := "room:1", params := [],
    listeners := [⟨"new_msg", 8⟩, ⟨"other", 9⟩] }

/-- A registry with both demo channels under `room:1`, in order. -/
def demoRegistry : List (String × List Chan) :=
  [("room:1", [demoChan, demoChan2])]

/-- The connected demo socket carrying the demo registry. -/
def demoListening : Socket := { demoConnected with channels := demoRegistry }

/-- A well-formed envelope matching the demo listeners. -/
def demoMsg : Message :=
  { topic := "room:1", event := "new_msg",
    payload := Json.obj [("body", JAtom.str "hi")], ref := none }

/-- The invariant that actually holds of `connected` (checked against
every reachable state): it can only be true once a transport handle has
been stored. -/
def connImpliesHandle (s : Socket) : Prop :=
  s.connected = true → s.ws_connection.isSome = true

/-- The direction of the spec invariant that does hold in every
reachable state: whenever the stored transport handle is open,
`connected` is true (only `connect` ever stores a handle, and it sets
the flag in the same step; `disconnect` closes the handle before
clearing the flag). -/
def openImpliesConnected (s : Socket) : Prop :=
  handleOpen s.ws_connection = true → s.connected = true

/-- Parsing a frame that encodes envelope `m` yields `m` back. -/
theorem mkMessage_encode (m : Message) : mkMessage (encodeMsg m) = Except.ok m := by
  cases m with
  | mk t e p r => cases r <;> rfl

/-- Operation `subscribe` assigns no field of the socket on any path. -/
theorem subscribe_state (s : Socket) (topic : String) :
    (s.subscribe topic).2.1 = s := by
  unfold Socket.subscribe
  cases s.ws_connection
  · rfl
  · split
    · rfl
    · split <;> rfl

/-- The dispatch inner loop agrees with filter-then-map over the
listener list. -/
theorem dispatchListeners_eq (ls : List Listener) (e : String) (p : Json) :
    dispatchListeners ls e p
      = (ls.filter (fun l => l.event == e)).map (fun l => (l.callback, p)) := by
  induction ls with
  | nil => rfl
  | cons cl rest ih =>
      simp only [dispatchListeners, List.filter_cons]
      cases hc : (cl.event == e) <;> simp [hc, ih]

/-- The dispatch outer loop agrees with the spec-form fan-out. -/
theorem dispatchChannels_eq (cs : List Chan) (e : String) (p : Json) :
    dispatchChannels cs e p = specFanOut cs e p := by
  induction cs with
  | nil => rfl
  | cons ch rest ih =>
      simp [dispatchChannels, specFanOut, dispatchListeners_eq, ih]

/-- Operation `connect` preserves the handle invariant. -/
theorem connect_preserves (s : Socket) (o : ConnectOutcome)
    (h : connImpliesHandle s) : connImpliesHandle (s.connect o).2 := by
  cases o with
  | rejected => exact h
  | opened b =>
      cases b
      · exact h
      · intro _; rfl

/-- Operation `disconnect` preserves the handle invariant. -/
theorem disconnect_preserves (s : Socket) (closeOk : Bool)
    (h : connImpliesHandle s) : connImpliesHandle (s.disconnect closeOk).2 := by
  unfold Socket.disconnect
  cases s.ws_connection
  · exact h
  · cases closeOk
    · exact h
    · intro hc; simp at hc

/-- Operation `set_channel` preserves the handle invariant. -/
theorem set_channel_preserves (s : Socket) (topic : String)
    (h : connImpliesHandle s) : connImpliesHandle (s.set_channel topic).2 := by
  unfold Socket.set_channel
  cases hcon : s.connected
  · simpa [hcon] using h
  · intro _; exact h hcon

/-- Remote closure preserves the handle invariant. -/
theorem remoteClose_preserves (s : Socket)
    (h : connImpliesHandle s) : connImpliesHandle (remoteClose s) := by
  intro hc2
  have h4 := h hc2
  unfold remoteClose
  cases hw : s.ws_connection
  · rw [hw] at h4; simp at h4
  · simp [hw]

/-- The heartbeat loop preserves the handle invariant. -/
theorem keep_alive_preserves (ticks : List Tick) :
    ∀ s : Socket, connImpliesHandle s →
      connImpliesHandle ((s.keep_alive ticks).socket) := by
  induction ticks with
  | nil => exact fun s h => h
  | cons t rest ih =>
      intro s h
      rcases s with ⟨url, chans, conn, params, hb, ws, ka⟩
      cases ws with
      | none => exact h
      | some hh =>
          cases t with
          | sendOk => exact ih _ h
          | sendClosed o =>
              cases o with
              | rejected => exact h
              | opened b =>
                  cases b with
                  | false => exact h
                  | true =>
                      exact ih _
                        (connect_preserves _ (ConnectOutcome.opened true) h)

/-- Operation `connect` preserves the open-implies-connected invariant. -/
theorem connect_preserves_oic (s : Socket) (o : ConnectOutcome)
    (h : openImpliesConnected s) : openImpliesConnected (s.connect o).2 := by
  cases o with
  | rejected => exact h
  | opened b =>
      cases b
      · exact h
      · intro _; rfl

/-- Operation `disconnect` preserves the open-implies-connected
invariant. -/
theorem disconnect_preserves_oic (s : Socket) (closeOk : Bool)
    (h : openImpliesConnected s) :
    openImpliesConnected (s.disconnect closeOk).2 := by
  unfold Socket.disconnect
  cases s.ws_connection
  · exact h
  · cases closeOk
    · exact h
    · intro hc; simp [handleOpen] at hc

/-- Operation `set_channel` preserves the open-implies-connected
invariant. -/
theorem set_channel_preserves_oic (s : Socket) (topic : String)
    (h : openImpliesConnected s) :
    openImpliesConnected (s.set_channel topic).2 := by
  unfold Socket.set_channel
  cases hcon : s.connected
  · simpa [hcon] using h
  · intro _; simp

/-- Remote closure preserves the open-implies-connected invariant: the
handle it leaves behind is never open. -/
theorem remoteClose_preserves_oic (s : Socket)
    (_h : openImpliesConnected s) : openImpliesConnected (remoteClose s) := by
  intro hc
  unfold remoteClose at hc
  cases hw : s.ws_connection
  · rw [hw] at hc; simp [handleOpen] at hc
  · rw [hw] at hc; simp [handleOpen] at hc

/-- The heartbeat loop preserves the open-implies-connected invariant. -/
theorem keep_alive_preserves_oic (ticks : List Tick) :
    ∀ s : Socket, openImpliesConnected s →
      openImpliesConnected ((s.keep_alive ticks).socket) := by
  induction ticks with
  | nil => exact fun s h => h
  | cons t rest ih =>
      intro s h
      rcases s with ⟨url, chans, conn, params, hb, ws, ka⟩
      cases ws with
      | none => exact h
      | some hh =>
          cases t with
          | sendOk => exact ih _ h
          | sendClosed o =>
              cases o with
              | rejected => exact h
              | opened b =>
                  cases b with
                  | false => exact h
                  | true =>
                      exact ih _
                        (connect_preserves_oic _ (ConnectOutcome.opened true) h)

/-- C1 counterexample: the claim that `subscribe(topic)` on a socket with
`connected == false` fails with `NotConnectedError` is false.  On the
freshly constructed socket (where `connected = false`) `subscribe` fails
with `AttributeError` on the never-assigned `ws_connection`, not with
`NotConnectedError` — it carries no `ensure_connection` guard. -/
theorem c1_counterexample :
    demoSocket.connected = false
    ∧ (demoSocket.subscribe "room:1").1
        = Except.error (PyErr.attributeError "ws_connection")
    ∧ (demoSocket.subscribe "room:1").1
        ≠ Except.error (PyErr.notConnectedError "subscribe") := by
  decide

/-- C1 (amended): only `set_channel` enforces the precondition: with
`connected == false` it fails with `NotConnectedError` and changes
nothing (it performs no send).  `subscribe` has no connected guard: on a
never-connected socket it fails with `AttributeError` having written
nothing to the wire, and on a socket whose stored transport handle is
closed the send raises `ConnectionClosed` and the handler then fails
with `NameError`; nothing reaches the wire, but no `NotConnectedError`
is ever raised. -/
theorem c1_guard (s : Socket) (topic : String) :
    (s.connected = false →
      (s.set_channel topic).1
          = Except.error (PyErr.notConnectedError "set_channel")
        ∧ (s.set_channel topic).2 = s)
    ∧ (s.ws_connection = none →
        (s.subscribe topic).1
            = Except.error (PyErr.attributeError "ws_connection")
          ∧ (s.subscribe topic).2.2 = [])
    ∧ (∀ h : WsHandle, s.ws_connection = some h → h.isOpen = false →
        (s.subscribe topic).1 = Except.error (PyErr.nameError "e")
          ∧ (s.subscribe topic).2.2 = []) := by
  have hne : "e" ∉ subscribeHandlerScope := by decide
  refine ⟨fun hc => ?_, fun hw => ?_, fun h hw ho => ?_⟩
  · simp [Socket.set_channel, hc]
  · simp [Socket.subscribe, hw]
  · simp [Socket.subscribe, hw, ho, hne]

/-- C1 witness: the amended statement at concrete sockets. -/
theorem c1_guard_witness :
    (demoSocket.set_channel "room:1").1
        = Except.error (PyErr.notConnectedError "set_channel")
    ∧ (demoSocket.subscribe "room:1").1
        = Except.error (PyErr.attributeError "ws_connection")
    ∧ (demoClosed.subscribe "room:1").1
        = Except.error (PyErr.nameError "e") :=
  ⟨((c1_guard demoSocket "room:1").1 rfl).1,
   ((c1_guard demoSocket "room:1").2.1 rfl).1,
   ((c1_guard demoClosed "room:1").2.2 ⟨false⟩ rfl rfl).1⟩

/-- C2: contrary to the claim (and the spec, which requires the single
bad frame to be dropped), a frame that fails to parse terminates the
listen loop: the only `except` clause catches `ConnectionClosed`, so the
parse error propagates.  On a socket with registered listeners, a
non-JSON frame followed by a well-formed matching frame yields the parse
error and zero invocations — the good frame is never processed — while
the same good frame alone is dispatched; a frame that is valid JSON but
lacks the required fields kills the loop the same way. -/
theorem c2_parse_failure_kills_listen :
    demoListening.listen
        [Incoming.text (Except.error PyErr.jsonDecodeError),
         Incoming.text (Except.ok (encodeMsg demoMsg))]
      = (Except.error PyErr.jsonDecodeError, [])
    ∧ demoListening.listen [Incoming.text (Except.ok (encodeMsg demoMsg))]
      = (Except.ok (), [(7, demoMsg.payload), (8, demoMsg.payload)])
    ∧ demoListening.listen
        [Incoming.text (Except.ok [("foo", Json.nul)]),
         Incoming.text (Except.ok (encodeMsg demoMsg))]
      = (Except.error PyErr.typeError, []) := by
  decide

/-- C4: an envelope whose event is the reserved reply event is skipped
before dispatch: processing it is the same as never receiving it, for
every registry, accumulated invocations, topic, payload and ref — no
listener callback is ever invoked for it. -/
theorem c4_reply_never_dispatched (chs : List (String × List Chan))
    (acc : List Invocation) (rest : List Incoming) (t : String) (p : Json)
    (r : Option String) :
    listenLoop chs acc
        (Incoming.text (Except.ok (encodeMsg
            { topic := t, event := ChannelEvents.reply,
              payload := p, ref := r })) :: rest)
      = listenLoop chs acc rest := by
  simp [listenLoop, parseFrame, mkMessage_encode]

/-- C3: receiving an envelope whose event is not the reply event
dispatches exactly as the spec-form fan-out: the callback of each
listener registered for the event, on each channel registered under the
topic, invoked exactly once with the payload — channels in registry
order, listeners in registration order.  When no channel is registered
under the topic, or no listener on any such channel matches the event,
no callback is invoked. -/
theorem c3_dispatch (chs : List (String × List Chan)) (m : Message)
    (hm : m.event ≠ ChannelEvents.reply) :
    listenLoop chs [] [Incoming.text (Except.ok (encodeMsg m))]
      = (Except.ok (), specDispatch chs m)
    ∧ (channelsGet chs m.topic = [] →
        listenLoop chs [] [Incoming.text (Except.ok (encodeMsg m))]
          = (Except.ok (), []))
    ∧ ((∀ ch ∈ channelsGet chs m.topic, ∀ l ∈ ch.listeners,
          l.event ≠ m.event) →
        listenLoop chs [] [Incoming.text (Except.ok (encodeMsg m))]
          = (Except.ok (), [])) := by
  have hev : (m.event == ChannelEvents.reply) = false := by
    simp [hm]
  have hmain : listenLoop chs [] [Incoming.text (Except.ok (encodeMsg m))]
      = (Except.ok (), specDispatch chs m) := by
    simp [listenLoop, parseFrame, mkMessage_encode, hev, dispatchOne,
      specDispatch, dispatchChannels_eq]
  refine ⟨hmain, fun h0 => ?_, fun hnone => ?_⟩
  · rw [hmain]
    simp [specDispatch, h0, specFanOut]
  · rw [hmain]
    suffices hz : specFanOut (channelsGet chs m.topic) m.event m.payload = []
      by simp [specDispatch, hz]
    revert hnone
    generalize channelsGet chs m.topic = cs
    intro hnone
    induction cs with
    | nil => rfl
    | cons ch rest ih =>
        have h1 : ch.listeners.filter (fun l => l.event == m.event) = [] := by
          rw [List.filter_eq_nil_iff]
          intro l hl
          simpa using hnone ch (List.mem_cons_self ch rest) l hl
        have h2 := ih (fun c hc l hl =>
          hnone c (List.mem_cons_of_mem ch hc) l hl)
        simp [specFanOut, h1, h2]

/-- C3 witness: the fan-out at a concrete registry holding two channels
under `room:1` — callbacks 7 and 8 each fire once with the payload, in
registration order; callback 9 (a non-matching event) does not. -/
theorem c3_dispatch_witness :
    listenLoop demoRegistry [] [Incoming.text (Except.ok (encodeMsg demoMsg))]
      = (Except.ok (), specDispatch demoRegistry demoMsg)
    ∧ specDispatch demoRegistry demoMsg
      = [(7, demoMsg.payload), (8, demoMsg.payload)] :=
  ⟨(c3_dispatch demoRegistry demoMsg (by decide)).1, by decide⟩

/-- C5 counterexample: the claimed invariant `connected == true iff the
transport handle is open` fails on a reachable state.  After a
successful `connect` followed by the remote endpoint closing the
transport, `connected` is still true while the handle is closed: no code
path updates `connected` on remote closure. -/
theorem c5_counterexample :
    Reachable demoClosed ∧ demoClosed.connected = true
    ∧ handleOpen demoClosed.ws_connection = false :=
  ⟨Reachable.remoteClose
      (Reachable.connect (ConnectOutcome.opened true)
        (Reachable.init "ws://example" [] 5)),
   by decide, by decide⟩

/-- C5 (amended): in every reachable state, the invariant holds in one
direction only.  If the stored transport handle is open then
`connected == true`; and `connected == true` implies a transport handle
has been stored by some successful `connect` — but not that the handle
is still open, since remote closure (and a `disconnect` whose close
raises) leaves `connected` stale, refuting the original iff. -/
theorem c5_connected_handle_invariant (s : Socket) (hr : Reachable s) :
    (s.connected = true → s.ws_connection.isSome = true)
    ∧ (handleOpen s.ws_connection = true → s.connected = true) := by
  constructor
  · have key : ∀ u : Socket, Reachable u → connImpliesHandle u := by
      intro u hu
      induction hu with
      | init url params hb => intro hx; simp [Socket.init] at hx
      | connect o _ ih => exact connect_preserves _ o ih
      | disconnect closeOk _ ih => exact disconnect_preserves _ closeOk ih
      | set_channel topic _ ih => exact set_channel_preserves _ topic ih
      | subscribe topic _ ih => rw [subscribe_state]; exact ih
      | keep_alive ticks _ ih => exact keep_alive_preserves ticks _ ih
      | remoteClose _ ih => exact remoteClose_preserves _ ih
    exact key s hr
  · have key : ∀ u : Socket, Reachable u → openImpliesConnected u := by
      intro u hu
      induction hu with
      | init url params hb => intro hx; simp [Socket.init, handleOpen] at hx
      | connect o _ ih => exact connect_preserves_oic _ o ih
      | disconnect closeOk _ ih => exact disconnect_preserves_oic _ closeOk ih
      | set_channel topic _ ih => exact set_channel_preserves_oic _ topic ih
      | subscribe topic _ ih => rw [subscribe_state]; exact ih
      | keep_alive ticks _ ih => exact keep_alive_preserves_oic ticks _ ih
      | remoteClose _ ih => exact remoteClose_preserves_oic _ ih
    exact key s hr

/-- C5 witness: both directions of the amended invariant at a concrete
reachable state. -/
theorem c5_witness :
    demoConnected.ws_connection.isSome = true
    ∧ demoConnected.connected = true :=
  ⟨(c5_connected_handle_invariant demoConnected
      (Reachable.connect (ConnectOutcome.opened true)
        (Reachable.init "ws://example" [] 5))).1 (by decide),
   (c5_connected_handle_invariant demoConnected
      (Reachable.connect (ConnectOutcome.opened true)
        (Reachable.init "ws://example" [] 5))).2 (by decide)⟩

/-- C6 counterexample: the claim that `connected == false` after every
`disconnect()` call — even when the transport close fails — is false.
On a connected socket whose transport `close` raises, `disconnect`
propagates the error before reaching the `self.connected = False`
assignment, leaving `connected = true`. -/
theorem c6_counterexample :
    (demoConnected.disconnect false).2.connected = true
    ∧ (demoConnected.disconnect false).1 = Except.error PyErr.closeFailed := by
  decide

/-- C6 (amended): on a socket holding a transport handle, `disconnect`
sets `connected = false` (and the handle is closed) only when the
transport close completes; when the close itself raises, the error
propagates and the socket — `connected` included — is left unchanged. -/
theorem c6_disconnect (s : Socket) (h : WsHandle)
    (hw : s.ws_connection = some h) :
    ((s.disconnect true).1 = Except.ok ()
      ∧ (s.disconnect true).2.connected = false
      ∧ (s.disconnect true).2.ws_connection = some ⟨false⟩)
    ∧ ((s.disconnect false).1 = Except.error PyErr.closeFailed
      ∧ (s.disconnect false).2 = s) := by
  simp [Socket.disconnect, hw]

/-- C6 witness: the amended statement at the connected demo socket. -/
theorem c6_disconnect_witness :
    (demoConnected.disconnect true).2.connected = false
    ∧ (demoConnected.disconnect false).2 = demoConnected :=
  ⟨(c6_disconnect demoConnected ⟨true⟩ rfl).1.2.1,
   (c6_disconnect demoConnected ⟨true⟩ rfl).2.2⟩

/-- C7: `connect` on success (the transport returns an open handle)
stores the handle and sets `connected = true`; every failure — the
transport rejecting, or the returned handle not open — raises the
connection-failure error and leaves the socket completely unchanged, so
a socket that was disconnected stays disconnected with its previous
handle field intact. -/
theorem c7_connect (s : Socket) :
    (∀ o : ConnectOutcome, (s.connect o).1 = Except.ok () →
        (s.connect o).2.ws_connection = some ⟨true⟩
        ∧ (s.connect o).2.connected = true)
    ∧ (∀ (o : ConnectOutcome) (e : PyErr),
        (s.connect o).1 = Except.error e →
          e = PyErr.connectionFailed ∧ (s.connect o).2 = s)
    ∧ (s.connected = false →
        ∀ (o : ConnectOutcome) (e : PyErr),
          (s.connect o).1 = Except.error e →
            (s.connect o).2.connected = false
            ∧ (s.connect o).2.ws_connection = s.ws_connection) := by
  refine ⟨?_, ?_, ?_⟩
  · intro o ho
    cases o with
    | rejected => simp [Socket.connect] at ho
    | opened b =>
        cases b
        · simp [Socket.connect] at ho
        · simp [Socket.connect]
  · intro o e he
    cases o with
    | rejected => simp_all [Socket.connect]
    | opened b => cases b <;> simp_all [Socket.connect]
  · intro hc o e he
    cases o with
    | rejected => simp_all [Socket.connect]
    | opened b => cases b <;> simp_all [Socket.connect]

/-- C7 witness: success and failure of `connect` at the fresh socket. -/
theorem c7_connect_witness :
    (demoSocket.connect (ConnectOutcome.opened true)).2.connected = true
    ∧ (demoSocket.connect ConnectOutcome.rejected).2 = demoSocket
    ∧ (demoSocket.connect ConnectOutcome.rejected).2.connected = false :=
  ⟨((c7_connect demoSocket).1 (ConnectOutcome.opened true) rfl).2,
   ((c7_connect demoSocket).2.1 ConnectOutcome.rejected
      PyErr.connectionFailed rfl).2,
   ((c7_connect demoSocket).2.2 rfl ConnectOutcome.rejected
      PyErr.connectionFailed rfl).1⟩

/-- C8 counterexample: the claim that reconnection failures are never
surfaced and never terminate the heartbeat loop is false.  On a
connected socket, one heartbeat send failing with `ConnectionClosed`
followed by a rejected reconnect makes the loop crash immediately with
the connection-failure error: `connect()` raises inside the `except`
block and nothing catches it. -/
theorem c8_counterexample :
    demoConnected.keep_alive [Tick.sendClosed ConnectOutcome.rejected]
      = KAResult.crashed PyErr.connectionFailed demoConnected := by
  decide

/-- C8 (amended): when the heartbeat send raises `ConnectionClosed`,
exactly one `connect()` is attempted within that tick; if it succeeds
the loop continues on the reconnected socket, but if that single attempt
fails its error propagates out of `_keep_alive` and the heartbeat loop
terminates — there is no per-tick retry until success. -/
theorem c8_keep_alive (s : Socket) (h : WsHandle) (rest : List Tick)
    (hw : s.ws_connection = some h) :
    (s.keep_alive (Tick.sendClosed (ConnectOutcome.opened true) :: rest)
        = Socket.keep_alive ((s.connect (ConnectOutcome.opened true)).2) rest)
    ∧ (∀ (o : ConnectOutcome) (e : PyErr),
        (s.connect o).1 = Except.error e →
          s.keep_alive (Tick.sendClosed o :: rest)
            = KAResult.crashed e s) := by
  rcases s with ⟨url, chans, conn, params, hb, ws, ka⟩
  cases ws with
  | none => simp at hw
  | some hh =>
      refine ⟨rfl, fun o e he => ?_⟩
      cases o with
      | rejected =>
          have he2 : PyErr.connectionFailed = e := by
            simpa [Socket.connect] using he
          cases he2
          rfl
      | opened b =>
          cases b with
          | false =>
              have he2 : PyErr.connectionFailed = e := by
                simpa [Socket.connect] using he
              cases he2
              rfl
          | true => simp [Socket.connect] at he

/-- C8 witness: the amended statement at the connected demo socket, for
a succeeding and for a failing reconnect attempt. -/
theorem c8_keep_alive_witness :
    demoConnected.keep_alive
        [Tick.sendClosed (ConnectOutcome.opened true), Tick.sendOk]
      = Socket.keep_alive
          ((demoConnected.connect (ConnectOutcome.opened true)).2)
          [Tick.sendOk]
    ∧ demoConnected.keep_alive
        [Tick.sendClosed ConnectOutcome.rejected, Tick.sendOk]
      = KAResult.crashed PyErr.connectionFailed demoConnected :=
  ⟨(c8_keep_alive demoConnected ⟨true⟩ [Tick.sendOk] rfl).1,
   (c8_keep_alive demoConnected ⟨true⟩ [Tick.sendOk] rfl).2
      ConnectOutcome.rejected PyErr.connectionFailed rfl⟩

/-- C9: the identifier `e` is bound nowhere in scope at the logging line
of the `ConnectionClosed` handler in `subscribe` (the `except` clause has
no `as` binding, and `e` is neither a local, a module global nor a
builtin), so when the send on a closed transport raises
`ConnectionClosed`, the handler itself fails with `NameError` for `e`
instead of logging the caught error. -/
theorem c9_handler_name_error :
    subscribeHandlerScope.contains "e" = false
    ∧ (∀ (s : Socket) (h : WsHandle) (topic : String),
        s.ws_connection = some h → h.isOpen = false →
          (s.subscribe topic).1 = Except.error (PyErr.nameError "e")) := by
  have hne : "e" ∉ subscribeHandlerScope := by decide
  refine ⟨by decide, fun s h topic hw ho => ?_⟩
  simp [Socket.subscribe, hw, ho, hne]

/-- C9 witness: the closed-connection subscribe path at a concrete
socket whose transport has closed. -/
theorem c9_handler_name_error_witness :
    (demoClosed.subscribe "room:1").1 = Except.error (PyErr.nameError "e") :=
  c9_handler_name_error.2 demoClosed ⟨false⟩ "room:1" rfl rfl

/-- C10: on every freshly constructed socket — `__init__` only annotates
`ws_connection`, never assigns it — `status`, `subscribe`, `disconnect`,
`listen` and the first heartbeat tick all fail with `AttributeError` for
`ws_connection`; in particular `status()` does not return `false`. -/
theorem c10_uninitialized_handle (url : String)
    (params : List (String × String)) (hb : Nat) (topic : String)
    (closeOk : Bool) (evs : List Incoming) (t : Tick) (ticks : List Tick) :
    ((Socket.init url params hb).status).1
        = Except.error (PyErr.attributeError "ws_connection")
    ∧ ((Socket.init url params hb).subscribe topic).1
        = Except.error (PyErr.attributeError "ws_connection")
    ∧ ((Socket.init url params hb).disconnect closeOk).1
        = Except.error (PyErr.attributeError "ws_connection")
    ∧ ((Socket.init url params hb).listen evs).1
        = Except.error (PyErr.attributeError "ws_connection")
    ∧ (Socket.init url params hb).keep_alive (t :: ticks)
        = KAResult.crashed (PyErr.attributeError "ws_connection")
            (Socket.init url params hb)
    ∧ ((Socket.init url params hb).status).1 ≠ Except.ok false := by
  refine ⟨rfl, rfl, rfl, rfl, rfl, by simp [Socket.status, Socket.init]⟩

end RealtimePy
